import Mathlib

/-!
Shallow embedding of the Flask backend in `app.py` (AI_NovelGenerator).

Each HTTP route handler is embedded as a pure Lean function from the parsed
JSON request body and an environment (the loaded configuration document, the
observable file system, and the outcomes of the delegated external library
calls) to an HTTP result together with the handler's observable side effects
(directory creation, whether the external generator / consistency checker was
invoked and with which arguments).

External collaborators that are imported by `app.py` but whose code is not in
this repository (`config_manager.load_config` / `save_config`, `utils.read_file`,
the novel-generation library, `consistency_checker.check_consistency`,
`clear_vector_store`) are modelled as oracles in the environment, or — where a
claim depends on their behaviour — modelled from the spec, as marked.
-/

/-- JSON values, as produced by Flask's `request.get_json()` and consumed by
`jsonify`.  Objects are association lists of string keys (Python dicts with
unique keys); numbers are modelled as integers, which covers every numeric
value the handlers inspect. -/
inductive Json where
  | null
  | bool (b : Bool)
  | num (n : Int)
  | str (s : String)
  | arr (elems : List Json)
  | obj (fields : List (String × Json))

/-- Python truthiness (`bool(x)`) of a JSON value: `None`, `False`, `0`, `""`,
`[]` and `` \x7b\x7d `` are falsy, everything else truthy. -/
def Json.truthy : Json → Bool
  | .null => false
  | .bool b => b
  | .num n => n != 0
  | .str s => s != ""
  | .arr elems => !elems.isEmpty
  | .obj fields => !fields.isEmpty

/-- `d.get(k)` on a Python dict (`None` when absent); non-dicts have no keys. -/
def Json.get : Json → String → Option Json
  | .obj fields, k => fields.lookup k
  | _, _ => none

/-- `d.get(k, default)` on a Python dict. -/
def Json.getD (j : Json) (k : String) (d : Json) : Json :=
  (j.get k).getD d

/-- `k in d` / `d[k]` where the key `k` is itself a JSON value: the handlers'
dicts all have string keys, so only a string key can be present. -/
def Json.lookupKey : Json → Json → Option Json
  | .obj fields, .str s => fields.lookup s
  | _, _ => none

/-- Python `str()` of a JSON value, as interpolated into the f-string error
messages.  Containers are abbreviated; no handler message formats one. -/
def Json.pyStr : Json → String
  | .null => "None"
  | .bool b => if b then "True" else "False"
  | .num n => toString n
  | .str s => s
  | .arr _ => "[...]"
  | .obj _ => "\x7b...\x7d"

/-- Wrap a string in single quotes, as the f-strings `f"...'\x7bx\x7d'..."` do. -/
def quoted (s : String) : String := "\x27" ++ s ++ "\x27"

/-- The Python exceptions distinguished by the handlers' `except` clauses. -/
inductive Exc where
  | fileNotFound (m : String)
  | keyError (m : String)
  | valueError (m : String)
  | typeError (m : String)
  | osError (m : String)
  | other (m : String)

/-- `str(e)`: the message carried by the exception. -/
def Exc.msg : Exc → String
  | .fileNotFound m => m
  | .keyError m => m
  | .valueError m => m
  | .typeError m => m
  | .osError m => m
  | .other m => m

/-- Leading and trailing whitespace removal on a character list (what
Python's `int()` / `float()` apply to their string argument). -/
def trimChars (l : List Char) : List Char :=
  ((l.dropWhile Char.isWhitespace).reverse.dropWhile Char.isWhitespace).reverse

/-- Accumulate a decimal numeral; fails at the first non-digit. -/
def digitsVal : List Char → Nat → Option Nat
  | [], acc => some acc
  | c :: cs, acc =>
    if c.isDigit then digitsVal cs (acc * 10 + (c.toNat - 48)) else none

/-- A non-empty all-digit numeral, as a natural number. -/
def digitsOnly : List Char → Option Nat
  | [] => none
  | cs => digitsVal cs 0

/-- Success of Python `int(s)` on a string: optional surrounding whitespace
then an optionally signed decimal integer literal. -/
def pyIntOfString (s : String) : Option Int :=
  match trimChars s.data with
  | '+' :: cs => (digitsOnly cs).map Int.ofNat
  | '-' :: cs => (digitsOnly cs).map fun n => -(n : Int)
  | cs => (digitsOnly cs).map Int.ofNat

/-- Python `int(x)` on a JSON value: ints (and bools) convert, strings are
parsed (`ValueError` on failure), other types raise `TypeError`. -/
def pyInt : Json → Except Exc Int
  | .bool b => .ok (if b then 1 else 0)
  | .num n => .ok n
  | .str s =>
    match pyIntOfString s with
    | some n => .ok n
    | none => .error (.valueError ("invalid literal for int() with base 10: " ++ quoted s))
  | _ => .error (.typeError "int() argument must be a string or a number")

/-- Success of Python `float(s)` on a string: an optionally signed decimal
literal, possibly with a fractional part (exotic forms such as exponents,
`inf` and `nan` are outside the configurations this development evaluates). -/
def pyFloatStrOk (s : String) : Bool :=
  let t := trimChars s.data
  let t := match t with
    | '+' :: cs => cs
    | '-' :: cs => cs
    | cs => cs
  let intPart := t.takeWhile Char.isDigit
  match t.dropWhile Char.isDigit with
  | [] => !intPart.isEmpty
  | '.' :: frac => frac.all Char.isDigit && (!intPart.isEmpty || !frac.isEmpty)
  | _ => false

/-- Python `float(x)` on a JSON value, success/failure only (the converted
number is only forwarded to the external oracle, never inspected). -/
def pyFloatChk : Json → Except Exc Unit
  | .bool _ => .ok ()
  | .num _ => .ok ()
  | .str s =>
    if pyFloatStrOk s then .ok ()
    else .error (.valueError ("could not convert string to float: " ++ quoted s))
  | _ => .error (.typeError "float() argument must be a string or a number")

/-- `d[k]` on a Python dict: `KeyError` when the key is absent. -/
def jIndex (j : Json) (k : String) : Except Exc Json :=
  match j.get k with
  | some v => .ok v
  | none => .error (.keyError (quoted k))

/-- An HTTP response: status code and JSON body (what `jsonify` serialises). -/
structure Response where
  status : Nat
  body : Json

/-- Outcome of a handler: a response, or an exception that escaped the handler
(Python propagates it to the framework instead of producing the JSON shape). -/
inductive HResult where
  | resp (r : Response)
  | unhandled (e : Exc)

/-- The uniform error body `jsonify(\x7b"status": "error", "message": msg\x7d)`. -/
def errJson (msg : String) : Json :=
  .obj [("status", .str "error"), ("message", .str msg)]

/-- An error response with the uniform error body. -/
def errResp (code : Nat) (msg : String) : HResult :=
  .resp ⟨code, errJson msg⟩

/-- The status code of a handler outcome (`none` when an exception escaped). -/
def HResult.status? : HResult → Option Nat
  | .resp r => some r.status
  | .unhandled _ => none

/-- True when the outcome is an HTTP response with the uniform error body and
the given status code. -/
def HResult.isErrorWith (h : HResult) (code : Nat) : Prop :=
  ∃ msg, h = errResp code msg

/-- The observable environment of one request: the stored configuration
document (`none` when the config file is missing), the projects base path,
whether `os.makedirs` succeeds (and the `OSError` text when not), the file
system visible through `read_file` and `os.path.isdir`, and the outcomes of
the delegated external calls. -/
structure Env where
  configStore : Option Json
  base : String
  makedirsOk : Bool
  makedirsMsg : String
  files : List (String × String)
  dirs : List String
  gen : Except Exc String
  clear : Except Exc Bool

/-- A parsed JSON-object request body: Python dict of string keys. -/
abbrev Body := List (String × Json)

/-- Modelled from the spec: `config_manager.load_config` (imported, not in the
repository) reads the JSON configuration document back from disk, an empty
document when the file is missing ("a JSON configuration document ...
round-tripped to disk verbatim"). -/
def load_config (store : Option Json) : Json :=
  store.getD (.obj [])

/-- Modelled from the spec: `config_manager.save_config` (imported, not in the
repository) writes the document to disk verbatim and reports success. -/
def save_config (d : Json) (_store : Option Json) : Bool × Option Json :=
  (true, some d)

/-- Modelled from the spec: `utils.read_file` (imported, not in the
repository) returns the file's text, and the empty string when the file is
missing — the handlers' own `"not found or empty"` tests rely on exactly
this ("file exists and is non-empty before being read downstream"). -/
def read_file (files : List (String × String)) (path : String) : String :=
  (files.lookup path).getD ""

/-- `os.path.join` on the POSIX paths the handlers build. -/
def pjoin (a b : String) : String := a ++ "/" ++ b

/-- `data.get("project_name", "default_project")` followed by
`os.path.join(base, project_name)`: a non-string value makes `os.path.join`
raise `TypeError`.  Returns the project name and the project path. -/
def projectInfo (env : Env) (body : Body) : Except Exc (String × String) :=
  match (body.lookup "project_name").getD (.str "default_project") with
  | .str s => .ok (s, pjoin env.base s)
  | _ => .error (.typeError "join() argument must be str")

/-- `get_llm_config` from `app.py`: loads the configuration, selects the
interface named by `last_interface_format` (default `"OpenAI"`), and checks
that every required key is present and truthy (`base_url` required exactly
for the `"OpenAI"` interface).  Returns the selected LLM config and the
interface name, or the error text. -/
def get_llm_config (store : Option Json) : Except String (Json × Json) :=
  let config := load_config store
  if !config.truthy then .error "Config file not found or empty."
  else
    let lastIf := config.getD "last_interface_format" (.str "OpenAI")
    let llmConfigs := config.getD "llm_configs" (.obj [])
    match llmConfigs.lookupKey lastIf with
    | none =>
      .error ("Configuration for " ++ quoted lastIf.pyStr ++ " not found in llm_configs.")
    | some current =>
      let requiredKeys := ["api_key", "model_name", "temperature", "max_tokens", "timeout"]
      let requiredKeys :=
        match lastIf with
        | .str "OpenAI" => requiredKeys ++ ["base_url"]
        | _ => requiredKeys
      let missingKeys := requiredKeys.filter fun k =>
        match current.get k with
        | none => true
        | some v => !v.truthy
      match missingKeys with
      | [] => .ok (current, lastIf)
      | _ =>
        .error ("LLM configuration for " ++ quoted lastIf.pyStr ++
          " is missing or has empty values for required keys: " ++
          String.intercalate ", " missingKeys ++ ".")

/-- `get_embedding_config` from `app.py`: same shape over
`last_embedding_interface_format` / `embedding_configs`, requiring only
`api_key` and `model_name`. -/
def get_embedding_config (store : Option Json) : Except String (Json × Json) :=
  let config := load_config store
  if !config.truthy then .error "Config file not found or empty."
  else
    let lastIf := config.getD "last_embedding_interface_format" (.str "OpenAI")
    let embConfigs := config.getD "embedding_configs" (.obj [])
    match embConfigs.lookupKey lastIf with
    | none =>
      .error ("Configuration for " ++ quoted lastIf.pyStr ++ " not found in embedding_configs.")
    | some current =>
      let requiredKeys := ["api_key", "model_name"]
      let missingKeys := requiredKeys.filter fun k =>
        match current.get k with
        | none => true
        | some v => !v.truthy
      match missingKeys with
      | [] => .ok (current, lastIf)
      | _ =>
        .error ("Embedding configuration for " ++ quoted lastIf.pyStr ++
          " is missing or has empty values for required keys: " ++
          String.intercalate ", " missingKeys ++ ".")

/-- `x is None` on a JSON value fetched with `.get` (absent keys and explicit
JSON `null` both come back as Python `None`). -/
def Json.isNull : Json → Bool
  | .null => true
  | _ => false

/-- The sequence of `llm_config[...]` accesses and numeric conversions
(`float(temperature)`, `int(max_tokens)`, `int(timeout)`) evaluated while
building the external call's arguments, before the call itself runs. -/
def llmArgs (llm : Json) : Except Exc Unit := do
  let _ ← jIndex llm "api_key"
  let _ ← jIndex llm "model_name"
  let t ← jIndex llm "temperature"
  let _ ← pyFloatChk t
  let m ← jIndex llm "max_tokens"
  let _ ← pyInt m
  let o ← jIndex llm "timeout"
  let _ ← pyInt o

/-- As `llmArgs`, plus the `embedding_config[...]` accesses made by the
chapter-draft and finalize handlers. -/
def draftArgs (llm emb : Json) : Except Exc Unit := do
  let _ ← llmArgs llm
  let _ ← jIndex emb "api_key"
  let _ ← jIndex emb "model_name"

/-- Outcome of a generator-backed handler: the HTTP result, the project
directory `os.makedirs` successfully created (if it ran and succeeded), and
whether the delegated external library function was actually invoked. -/
structure CallResult where
  response : HResult
  dirCreated : Option String
  genCalled : Bool

/-- The `except` clauses of `generate_architecture_api` (`KeyError`,
`ValueError`, then bare `Exception`), mapping an exception to the message. -/
def archExcMsg : Exc → String
  | .keyError m => "Missing key in LLM configuration: " ++ m
  | .valueError m => "Invalid value in LLM configuration: " ++ m
  | e => "Error generating novel architecture: " ++ e.msg

/-- `POST /api/novel/architecture` (`generate_architecture_api` in `app.py`). -/
def generate_architecture_api (env : Env) (body : Body) : CallResult :=
  match projectInfo env body with
  | .error e => ⟨.unhandled e, none, false⟩
  | .ok (_name, filepath) =>
    if !env.makedirsOk then
      ⟨errResp 500 ("Could not create project directory: " ++ env.makedirsMsg), none, false⟩
    else
      match get_llm_config env.configStore with
      | .error m => ⟨errResp 500 ("LLM Config Error: " ++ m), some filepath, false⟩
      | .ok (llm, _iface) =>
        if body.isEmpty then ⟨errResp 400 "Request body must be JSON.", some filepath, false⟩
        else
          match pyInt ((body.lookup "num_chapters").getD (.num 10)) with
          | .error e => ⟨.unhandled e, some filepath, false⟩
          | .ok _ =>
            match pyInt ((body.lookup "word_number").getD (.num 3000)) with
            | .error e => ⟨.unhandled e, some filepath, false⟩
            | .ok _ =>
              match llmArgs llm with
              | .error e => ⟨errResp 500 (archExcMsg e), some filepath, false⟩
              | .ok _ =>
                match env.gen with
                | .ok _ =>
                  ⟨.resp ⟨200, .obj [("status", .str "success"),
                    ("message", .str "Novel architecture generated."),
                    ("filepath", .str filepath)]⟩, some filepath, true⟩
                | .error e => ⟨errResp 500 (archExcMsg e), some filepath, true⟩

/-- The `except` clauses of `generate_blueprint_api` (`FileNotFoundError` →
400, `KeyError` / `ValueError` / bare `Exception` → 500). -/
def blueprintExcResp : Exc → HResult
  | .fileNotFound m => errResp 400 ("Prerequisite file not found: " ++ m ++ ".")
  | .keyError m => errResp 500 ("Missing key in LLM configuration: " ++ m)
  | .valueError m => errResp 500 ("Invalid value in LLM configuration or request: " ++ m)
  | e => errResp 500 ("Error generating novel blueprint: " ++ e.msg)

/-- `POST /api/novel/blueprint` (`generate_blueprint_api` in `app.py`). -/
def generate_blueprint_api (env : Env) (body : Body) : CallResult :=
  match projectInfo env body with
  | .error e => ⟨.unhandled e, none, false⟩
  | .ok (_name, filepath) =>
    if !env.makedirsOk then
      ⟨errResp 500 ("Could not create project directory: " ++ env.makedirsMsg), none, false⟩
    else
      match get_llm_config env.configStore with
      | .error m => ⟨errResp 500 ("LLM Config Error: " ++ m), some filepath, false⟩
      | .ok (llm, _iface) =>
        if body.isEmpty then ⟨errResp 400 "Request body must be JSON.", some filepath, false⟩
        else
          let nc := (body.lookup "num_chapters").getD .null
          if nc.isNull then
            ⟨errResp 400 ("Missing " ++ quoted "num_chapters" ++ " in request."), some filepath, false⟩
          else
            match pyInt nc with
            | .error (.valueError _) =>
              ⟨errResp 400 (quoted "num_chapters" ++ " must be an integer."), some filepath, false⟩
            | .error e => ⟨.unhandled e, some filepath, false⟩
            | .ok _ =>
              match llmArgs llm with
              | .error e => ⟨blueprintExcResp e, some filepath, false⟩
              | .ok _ =>
                match env.gen with
                | .ok _ =>
                  ⟨.resp ⟨200, .obj [("status", .str "success"),
                    ("message", .str "Novel blueprint generated."),
                    ("filepath", .str filepath)]⟩, some filepath, true⟩
                | .error e => ⟨blueprintExcResp e, some filepath, true⟩

/-- The `except` clauses of `generate_chapter_draft_api`. -/
def draftExcResp : Exc → HResult
  | .fileNotFound m => errResp 400 ("Prerequisite file not found: " ++ m ++ ".")
  | .keyError m => errResp 500 ("Missing key in LLM or Embedding configuration: " ++ m)
  | .valueError m => errResp 500 ("Invalid value in configuration or request parameters: " ++ m)
  | e => errResp 500 ("Error generating chapter draft: " ++ e.msg)

/-- `POST /api/novel/chapter_draft` (`generate_chapter_draft_api` in `app.py`). -/
def generate_chapter_draft_api (env : Env) (body : Body) : CallResult :=
  match projectInfo env body with
  | .error e => ⟨.unhandled e, none, false⟩
  | .ok (_name, filepath) =>
    if !env.makedirsOk then
      ⟨errResp 500 ("Could not create project directory: " ++ env.makedirsMsg), none, false⟩
    else
      match get_llm_config env.configStore with
      | .error m => ⟨errResp 500 ("LLM Config Error: " ++ m), some filepath, false⟩
      | .ok (llm, _iface) =>
        match get_embedding_config env.configStore with
        | .error m => ⟨errResp 500 ("Embedding Config Error: " ++ m), some filepath, false⟩
        | .ok (emb, _eiface) =>
          if body.isEmpty then ⟨errResp 400 "Request body must be JSON.", some filepath, false⟩
          else
            let nn := (body.lookup "novel_number").getD .null
            let wn := (body.lookup "word_number").getD .null
            if nn.isNull || wn.isNull then
              ⟨errResp 400 ("Missing " ++ quoted "novel_number" ++ " or " ++ quoted "word_number" ++ "."),
                some filepath, false⟩
            else
              match (do let a ← pyInt nn; let b ← pyInt wn; pure (a, b) : Except Exc (Int × Int)) with
              | .error (.valueError _) =>
                ⟨errResp 400 (quoted "novel_number" ++ " and " ++ quoted "word_number" ++ " must be integers."),
                  some filepath, false⟩
              | .error e => ⟨.unhandled e, some filepath, false⟩
              | .ok (novel_number, _word_number) =>
                match pyInt ((body.lookup "embedding_retrieval_k").getD (.str "4")) with
                | .error (.valueError _) =>
                  ⟨errResp 400 (quoted "embedding_retrieval_k" ++ " must be an integer."), some filepath, false⟩
                | .error e => ⟨.unhandled e, some filepath, false⟩
                | .ok _ =>
                  match draftArgs llm emb with
                  | .error e => ⟨draftExcResp e, some filepath, false⟩
                  | .ok _ =>
                    match env.gen with
                    | .error e => ⟨draftExcResp e, some filepath, true⟩
                    | .ok draft_text =>
                      if draft_text != "" then
                        ⟨.resp ⟨200, .obj [("status", .str "success"),
                          ("message", .str ("Chapter " ++ toString novel_number ++ " draft generated.")),
                          ("filepath", .str filepath),
                          ("draft_text", .str draft_text)]⟩, some filepath, true⟩
                      else
                        ⟨errResp 500 "Chapter draft generation resulted in empty content.", some filepath, true⟩

/-- The `except` clauses of `finalize_chapter_api`. -/
def finalizeExcResp : Exc → HResult
  | .fileNotFound m => errResp 400 ("Required file not found: " ++ m ++ ".")
  | .keyError m => errResp 500 ("Missing key in LLM or Embedding configuration: " ++ m)
  | .valueError m => errResp 500 ("Invalid value in configuration or request parameters: " ++ m)
  | e => errResp 500 ("Error finalizing chapter: " ++ e.msg)

/-- `POST /api/novel/finalize_chapter` (`finalize_chapter_api` in `app.py`).
Unlike the other generator-backed handlers it never calls `os.makedirs`. -/
def finalize_chapter_api (env : Env) (body : Body) : CallResult :=
  match projectInfo env body with
  | .error e => ⟨.unhandled e, none, false⟩
  | .ok (_name, filepath) =>
    match get_llm_config env.configStore with
    | .error m => ⟨errResp 500 ("LLM Config Error: " ++ m), none, false⟩
    | .ok (llm, _iface) =>
      match get_embedding_config env.configStore with
      | .error m => ⟨errResp 500 ("Embedding Config Error: " ++ m), none, false⟩
      | .ok (emb, _eiface) =>
        if body.isEmpty then ⟨errResp 400 "Request body must be JSON.", none, false⟩
        else
          let nn := (body.lookup "novel_number").getD .null
          let wn := (body.lookup "word_number").getD .null
          if nn.isNull || wn.isNull then
            ⟨errResp 400 ("Missing " ++ quoted "novel_number" ++ " or " ++ quoted "word_number" ++ "."),
              none, false⟩
          else
            match (do let a ← pyInt nn; let b ← pyInt wn; pure (a, b) : Except Exc (Int × Int)) with
            | .error (.valueError _) =>
              ⟨errResp 400 ("Invalid " ++ quoted "novel_number" ++ " or " ++ quoted "word_number" ++
                ", must be integers."), none, false⟩
            | .error e => ⟨.unhandled e, none, false⟩
            | .ok (novel_number, _word_number) =>
              match draftArgs llm emb with
              | .error e => ⟨finalizeExcResp e, none, false⟩
              | .ok _ =>
                match env.gen with
                | .ok _ =>
                  ⟨.resp ⟨200, .obj [("status", .str "success"),
                    ("message", .str ("Chapter " ++ toString novel_number ++
                      " finalized. Summaries, character states, and vector store updated.")),
                    ("filepath", .str filepath)]⟩, none, true⟩
                | .error e => ⟨finalizeExcResp e, none, true⟩

/-- The five text arguments the consistency handler passes to the external
`check_consistency` function. -/
structure CheckArgs where
  novel_setting : String
  character_state : String
  global_summary : String
  chapter_text : String
  plot_arcs : String

/-- Outcome of the consistency handler: the HTTP result and, when the external
checker was invoked, the texts it was given. -/
structure CheckOut where
  response : HResult
  checkerCall : Option CheckArgs

/-- `POST /api/novel/check_consistency` (`check_consistency_api` in `app.py`). -/
def check_consistency_api (env : Env) (body : Body) : CheckOut :=
  if body.isEmpty then ⟨errResp 400 "Request body must be JSON.", none⟩
  else
    match projectInfo env body with
    | .error e => ⟨.unhandled e, none⟩
    | .ok (_name, filepath) =>
      let cn := (body.lookup "chapter_number").getD .null
      if cn.isNull then ⟨errResp 400 ("Missing " ++ quoted "chapter_number" ++ "."), none⟩
      else
        match pyInt cn with
        | .error (.valueError _) =>
          ⟨errResp 400 ("Invalid " ++ quoted "chapter_number" ++ ", must be an integer."), none⟩
        | .error e => ⟨.unhandled e, none⟩
        | .ok chapter_number =>
          match get_llm_config env.configStore with
          | .error m => ⟨errResp 500 ("LLM Config Error: " ++ m), none⟩
          | .ok (llm, _iface) =>
            let novel_setting_text := read_file env.files (pjoin filepath "Novel_architecture.txt")
            if novel_setting_text == "" then
              ⟨errResp 404 ("Required file issue: Novel_architecture.txt not found or empty in " ++
                quoted filepath), none⟩
            else
              let character_state_text := read_file env.files (pjoin filepath "character_state.txt")
              if character_state_text == "" then
                ⟨errResp 404 ("Required file issue: character_state.txt not found or empty in " ++
                  quoted filepath), none⟩
              else
                let global_summary_text := read_file env.files (pjoin filepath "global_summary.txt")
                if global_summary_text == "" then
                  ⟨errResp 404 ("Required file issue: global_summary.txt not found or empty in " ++
                    quoted filepath), none⟩
                else
                  let chapter_file_path :=
                    pjoin (pjoin filepath "chapters") ("chapter_" ++ toString chapter_number ++ ".txt")
                  let chapter_text_content := read_file env.files chapter_file_path
                  if chapter_text_content == "" then
                    ⟨errResp 404 ("Required file issue: Chapter file " ++ quoted chapter_file_path ++
                      " not found or empty."), none⟩
                  else
                    let plot_arcs_text := read_file env.files (pjoin filepath "plot_arcs.txt")
                    let args : CheckArgs :=
                      ⟨novel_setting_text, character_state_text, global_summary_text,
                        chapter_text_content, plot_arcs_text⟩
                    match llmArgs llm with
                    | .error e =>
                      ⟨errResp 500 ("Error during consistency check: " ++ e.msg), none⟩
                    | .ok _ =>
                      match env.gen with
                      | .ok report =>
                        ⟨.resp ⟨200, .obj [("status", .str "success"),
                          ("consistency_report", .str report)]⟩, some args⟩
                      | .error e =>
                        ⟨errResp 500 ("Error during consistency check: " ++ e.msg), some args⟩

/-- `POST /api/vectorstore/clear` (`clear_vectorstore_api` in `app.py`). -/
def clear_vectorstore_api (env : Env) (body : Body) : HResult :=
  if body.isEmpty then errResp 400 "Request body must be JSON."
  else
    match projectInfo env body with
    | .error e => .unhandled e
    | .ok (name, filepath) =>
      if !(env.dirs.contains filepath) then
        errResp 404 ("Project directory " ++ quoted filepath ++ " not found.")
      else
        match env.clear with
        | .ok true =>
          .resp ⟨200, .obj [("status", .str "success"),
            ("message", .str ("Vector store for project " ++ quoted name ++ " cleared."))]⟩
        | .ok false =>
          errResp 500 ("Failed to clear vector store for project " ++ quoted name ++ ". The " ++
            quoted "vectorstore" ++ " directory may still exist or be partially deleted.")
        | .error e => errResp 500 ("Error clearing vector store: " ++ e.msg)

/-- `GET /api/config` (`get_config_api` in `app.py`): loads the stored
document and serialises it back with status 200. -/
def get_config_api (store : Option Json) : Response :=
  ⟨200, load_config store⟩

/-- `POST /api/config` (`save_config_api` in `app.py`): a JSON object is
saved verbatim (500 if the saver reports failure), anything else is a 400.
Returns the response and the new stored document. -/
def save_config_api (store : Option Json) (d : Json) : Response × Option Json :=
  match d with
  | .obj fields =>
    match save_config (.obj fields) store with
    | (true, store2) =>
      (⟨200, .obj [("status", .str "success"), ("message", .str "Configuration saved.")]⟩, store2)
    | (false, store2) => (⟨500, errJson "Failed to save configuration."⟩, store2)
  | _ => (⟨400, errJson "Invalid configuration format. Must be a JSON object."⟩, store)

/-- A well-formed configuration document (the shape of the fixture in
`test_app.py`). -/
def goodCfg : Json := .obj [
  ("last_interface_format", .str "TestLLM"),
  ("llm_configs", .obj [("TestLLM", .obj [
    ("api_key", .str "test_key"), ("base_url", .str "http://localhost/test"),
    ("model_name", .str "test_model"), ("temperature", .num 1),
    ("max_tokens", .num 100), ("timeout", .num 60)])]),
  ("last_embedding_interface_format", .str "TestEmbed"),
  ("embedding_configs", .obj [("TestEmbed", .obj [
    ("api_key", .str "embed_key"), ("model_name", .str "embed_model")])])]

/-- The LLM configuration `get_llm_config` selects out of `goodCfg`. -/
def goodLLMSel : Json := .obj [
  ("api_key", .str "test_key"), ("base_url", .str "http://localhost/test"),
  ("model_name", .str "test_model"), ("temperature", .num 1),
  ("max_tokens", .num 100), ("timeout", .num 60)]

/-- The embedding configuration `get_embedding_config` selects out of `goodCfg`. -/
def goodEmbSel : Json := .obj [
  ("api_key", .str "embed_key"), ("model_name", .str "embed_model")]

/-- A benign environment: valid configuration, directory creation succeeds,
no project files yet, external calls succeed. -/
def baseEnv : Env :=
  ⟨some goodCfg, "novel_projects", true, "", [], [], .ok "generated text", .ok true⟩

/-- As `baseEnv` but the configuration file is missing. -/
def envBadCfg : Env := { baseEnv with configStore := none }

/-- A JSON-object body that carries only a project name. -/
def bodyOnlyProject : Body := [("project_name", .str "p")]

/-- A body selecting chapter 1 of project `p`. -/
def bodyChap1 : Body := [("project_name", .str "p"), ("chapter_number", .num 1)]

/-- As `baseEnv` with the four consistency-check prerequisites of project `p`
present and non-empty, but no `plot_arcs.txt`. -/
def envProjFiles : Env := { baseEnv with files := [
  ("novel_projects/p/Novel_architecture.txt", "arch"),
  ("novel_projects/p/character_state.txt", "chars"),
  ("novel_projects/p/global_summary.txt", "summary"),
  ("novel_projects/p/chapters/chapter_1.txt", "chapter one")] }

example : get_llm_config (some goodCfg) = .ok (goodLLMSel, .str "TestLLM") := rfl
example : get_embedding_config (some goodCfg) = .ok (goodEmbSel, .str "TestEmbed") := rfl
example : get_llm_config none = .error "Config file not found or empty." := rfl
example : llmArgs goodLLMSel = .ok () := rfl
example : (check_consistency_api envProjFiles bodyChap1).checkerCall =
  some ⟨"arch", "chars", "summary", "chapter one", ""⟩ := rfl
example : (generate_blueprint_api envBadCfg bodyOnlyProject).response =
  errResp 500 "LLM Config Error: Config file not found or empty." := rfl
example : (check_consistency_api envBadCfg bodyOnlyProject).response =
  errResp 400 ("Missing " ++ quoted "chapter_number" ++ ".") := rfl

/-- C1 (amended): every text that `check_consistency_api` passes to the
external consistency checker as `novel_setting`, `character_state`,
`global_summary` or `chapter_text` is a non-empty string; the `plot_arcs`
text, which is read without a non-emptiness check, may be empty. -/
theorem C1_checker_texts_nonempty (env : Env) (body : Body) (a : CheckArgs)
    (h : (check_consistency_api env body).checkerCall = some a) :
    a.novel_setting ≠ "" ∧ a.character_state ≠ "" ∧
    a.global_summary ≠ "" ∧ a.chapter_text ≠ "" := by
  simp only [check_consistency_api] at h
  repeat' split at h
  all_goals dsimp only at h
  all_goals first
    | exact Option.noConfusion h
    | (obtain rfl := Option.some.inj h; simp_all)

/-- C1 counterexample: with the four guarded prerequisite files present but
no `plot_arcs.txt`, the checker is invoked with an empty `plot_arcs` text, so
not all five texts passed to it are non-empty. -/
theorem C1_counterexample :
    (check_consistency_api envProjFiles bodyChap1).checkerCall =
      some ⟨"arch", "chars", "summary", "chapter one", ""⟩ ∧
    (⟨"arch", "chars", "summary", "chapter one", ""⟩ : CheckArgs).plot_arcs = "" :=
  ⟨rfl, rfl⟩

/-- C1 witness: a consistency check that reaches the external checker, with
the four guarded texts non-empty. -/
theorem C1_witness :
    (check_consistency_api envProjFiles bodyChap1).checkerCall =
      some ⟨"arch", "chars", "summary", "chapter one", ""⟩ ∧
    ("arch" ≠ "" ∧ "chars" ≠ "" ∧ "summary" ≠ "" ∧ "chapter one" ≠ "") :=
  ⟨rfl, C1_checker_texts_nonempty envProjFiles bodyChap1
    ⟨"arch", "chars", "summary", "chapter one", ""⟩ rfl⟩

/-- C2: the configuration document round-trips verbatim — if
`POST /api/config` with body `d` answers 200, an immediate `GET /api/config`
returns exactly `d` with status 200. -/
theorem C2_config_roundtrip (store : Option Json) (d : Json)
    (h : (save_config_api store d).1.status = 200) :
    get_config_api (save_config_api store d).2 = ⟨200, d⟩ := by
  cases d
  case obj fields => rfl
  all_goals simp [save_config_api] at h

/-- C2 witness: saving a concrete one-field document and reading it back. -/
theorem C2_witness :
    (save_config_api none (.obj [("k", .str "v")])).1.status = 200 ∧
    get_config_api (save_config_api none (.obj [("k", .str "v")])).2 =
      ⟨200, .obj [("k", .str "v")]⟩ :=
  ⟨rfl, C2_config_roundtrip none (.obj [("k", .str "v")]) rfl⟩

/-- The LLM configuration validates successfully (`get_llm_config` returns no
error). -/
def llmOk (env : Env) : Prop := ∃ p, get_llm_config env.configStore = .ok p

/-- The embedding configuration validates successfully. -/
def embOk (env : Env) : Prop := ∃ p, get_embedding_config env.configStore = .ok p

/-- C3 (amended): provided the request's `project_name` joins to a path (it
is absent or a string), directory creation succeeds where the handler
performs it, and the configuration checks that the handler runs first all
pass, a body lacking the required field yields HTTP 400 with the uniform
JSON error body: `num_chapters` for the blueprint route, `novel_number` /
`word_number` for chapter-draft and finalize, `chapter_number` for the
consistency route (the latter needs no configuration at all, since its field
check precedes the configuration check). -/
theorem C3_missing_required_field_400 (env : Env) (body : Body)
    (hp : ∃ np, projectInfo env body = .ok np) :
    (llmOk env → env.makedirsOk = true → body.lookup "num_chapters" = none →
      (generate_blueprint_api env body).response.isErrorWith 400)
  ∧ (llmOk env → embOk env → env.makedirsOk = true →
      (body.lookup "novel_number" = none ∨ body.lookup "word_number" = none) →
      (generate_chapter_draft_api env body).response.isErrorWith 400)
  ∧ (llmOk env → embOk env →
      (body.lookup "novel_number" = none ∨ body.lookup "word_number" = none) →
      (finalize_chapter_api env body).response.isErrorWith 400)
  ∧ (body.lookup "chapter_number" = none →
      (check_consistency_api env body).response.isErrorWith 400) := by
  obtain ⟨⟨name, fp⟩, hproj⟩ := hp
  refine ⟨?_, ?_, ?_, ?_⟩
  · rintro ⟨⟨llm, iface⟩, hllm⟩ hmk hnc
    cases body with
    | nil => exact ⟨_, by simp [generate_blueprint_api, hproj, hllm, hmk]; rfl⟩
    | cons hd tl =>
      exact ⟨_, by simp [generate_blueprint_api, hproj, hllm, hmk, hnc, Json.getD, Json.isNull]; rfl⟩
  · rintro ⟨⟨llm, iface⟩, hllm⟩ ⟨⟨emb, eiface⟩, hemb⟩ hmk hfield
    cases body with
    | nil => exact ⟨_, by simp [generate_chapter_draft_api, hproj, hllm, hemb, hmk]; rfl⟩
    | cons hd tl =>
      rcases hfield with hnn | hwn
      · exact ⟨_, by simp [generate_chapter_draft_api, hproj, hllm, hemb, hmk, hnn,
          Json.getD, Json.isNull]; rfl⟩
      · exact ⟨_, by simp [generate_chapter_draft_api, hproj, hllm, hemb, hmk, hwn,
          Json.getD, Json.isNull]; rfl⟩
  · rintro ⟨⟨llm, iface⟩, hllm⟩ ⟨⟨emb, eiface⟩, hemb⟩ hfield
    cases body with
    | nil => exact ⟨_, by simp [finalize_chapter_api, hproj, hllm, hemb]; rfl⟩
    | cons hd tl =>
      rcases hfield with hnn | hwn
      · exact ⟨_, by simp [finalize_chapter_api, hproj, hllm, hemb, hnn,
          Json.getD, Json.isNull]; rfl⟩
      · exact ⟨_, by simp [finalize_chapter_api, hproj, hllm, hemb, hwn,
          Json.getD, Json.isNull]; rfl⟩
  · intro hcn
    cases body with
    | nil => exact ⟨_, by simp [check_consistency_api]; rfl⟩
    | cons hd tl =>
      exact ⟨_, by simp [check_consistency_api, hproj, hcn, Json.getD, Json.isNull]; rfl⟩

/-- C3 counterexample: a JSON-object body lacking `num_chapters` sent to the
blueprint route with a missing configuration file is answered 500 (the
configuration check runs first), not 400. -/
theorem C3_counterexample :
    (generate_blueprint_api envBadCfg bodyOnlyProject).response =
      errResp 500 "LLM Config Error: Config file not found or empty." ∧
    (generate_blueprint_api envBadCfg bodyOnlyProject).response.status? = some 500 :=
  ⟨rfl, rfl⟩

/-- C3 witness: with a valid configuration and working directory creation, a
body lacking all of the required fields draws 400 from all four routes. -/
theorem C3_witness :
    (generate_blueprint_api baseEnv bodyOnlyProject).response.isErrorWith 400 ∧
    (generate_chapter_draft_api baseEnv bodyOnlyProject).response.isErrorWith 400 ∧
    (finalize_chapter_api baseEnv bodyOnlyProject).response.isErrorWith 400 ∧
    (check_consistency_api baseEnv bodyOnlyProject).response.isErrorWith 400 := by
  have t := C3_missing_required_field_400 baseEnv bodyOnlyProject ⟨("p", "novel_projects/p"), rfl⟩
  exact ⟨t.1 ⟨(goodLLMSel, .str "TestLLM"), rfl⟩ rfl rfl,
    t.2.1 ⟨(goodLLMSel, .str "TestLLM"), rfl⟩ ⟨(goodEmbSel, .str "TestEmbed"), rfl⟩ rfl (Or.inl rfl),
    t.2.2.1 ⟨(goodLLMSel, .str "TestLLM"), rfl⟩ ⟨(goodEmbSel, .str "TestEmbed"), rfl⟩ (Or.inl rfl),
    t.2.2.2 rfl⟩

/-- C4 (amended): for every LLM-using endpoint, when `get_llm_config` reports
an error (empty config, unknown interface, or a required key absent or
falsy), the response is 500 with message `"LLM Config Error: "` followed by
the configuration error text, and the external generator (resp. consistency
checker) is not called — provided the handler reaches its configuration
check: the `project_name` joins to a path, directory creation succeeds where
the handler performs it first, and, for the consistency route only, the body
is non-empty and carries a convertible `chapter_number` (that validation
precedes the configuration check). -/
theorem C4_missing_config_500 (env : Env) (body : Body) (m name fp : String)
    (hcfg : get_llm_config env.configStore = .error m)
    (hproj : projectInfo env body = .ok (name, fp)) :
    (env.makedirsOk = true →
      (generate_architecture_api env body).response = errResp 500 ("LLM Config Error: " ++ m) ∧
      (generate_architecture_api env body).genCalled = false)
  ∧ (env.makedirsOk = true →
      (generate_blueprint_api env body).response = errResp 500 ("LLM Config Error: " ++ m) ∧
      (generate_blueprint_api env body).genCalled = false)
  ∧ (env.makedirsOk = true →
      (generate_chapter_draft_api env body).response = errResp 500 ("LLM Config Error: " ++ m) ∧
      (generate_chapter_draft_api env body).genCalled = false)
  ∧ ((finalize_chapter_api env body).response = errResp 500 ("LLM Config Error: " ++ m) ∧
      (finalize_chapter_api env body).genCalled = false)
  ∧ (∀ n : Int, body.isEmpty = false →
      pyInt ((body.lookup "chapter_number").getD .null) = .ok n →
      (check_consistency_api env body).response = errResp 500 ("LLM Config Error: " ++ m) ∧
      (check_consistency_api env body).checkerCall = none) := by
  refine ⟨?_, ?_, ?_, ?_, ?_⟩
  · intro hmk
    constructor <;> simp [generate_architecture_api, hproj, hcfg, hmk]
  · intro hmk
    constructor <;> simp [generate_blueprint_api, hproj, hcfg, hmk]
  · intro hmk
    constructor <;> simp [generate_chapter_draft_api, hproj, hcfg, hmk]
  · constructor <;> simp [finalize_chapter_api, hproj, hcfg]
  · intro n hb hcn
    have hnn : ((body.lookup "chapter_number").getD .null).isNull = false := by
      cases hj : (body.lookup "chapter_number").getD .null
      case null => rw [hj] at hcn; simp [pyInt] at hcn
      all_goals rfl
    constructor <;> simp [check_consistency_api, hb, hproj, hnn, hcn, hcfg]

/-- C4 counterexample: with the configuration file missing, a consistency
request whose body lacks `chapter_number` is answered 400, not 500 — the
body validation of that route precedes its configuration check. -/
theorem C4_counterexample :
    get_llm_config envBadCfg.configStore = .error "Config file not found or empty." ∧
    (check_consistency_api envBadCfg bodyOnlyProject).response =
      errResp 400 ("Missing " ++ quoted "chapter_number" ++ ".") ∧
    (check_consistency_api envBadCfg bodyOnlyProject).response.status? = some 400 :=
  ⟨rfl, rfl, rfl⟩

/-- C4 witness: with the configuration file missing and an otherwise valid
request, all five LLM-using routes answer 500 with the config error text and
never invoke the external call. -/
theorem C4_witness :
    ((generate_architecture_api envBadCfg bodyChap1).response =
      errResp 500 ("LLM Config Error: " ++ "Config file not found or empty.") ∧
     (generate_architecture_api envBadCfg bodyChap1).genCalled = false) ∧
    ((generate_blueprint_api envBadCfg bodyChap1).response =
      errResp 500 ("LLM Config Error: " ++ "Config file not found or empty.") ∧
     (generate_blueprint_api envBadCfg bodyChap1).genCalled = false) ∧
    ((generate_chapter_draft_api envBadCfg bodyChap1).response =
      errResp 500 ("LLM Config Error: " ++ "Config file not found or empty.") ∧
     (generate_chapter_draft_api envBadCfg bodyChap1).genCalled = false) ∧
    ((finalize_chapter_api envBadCfg bodyChap1).response =
      errResp 500 ("LLM Config Error: " ++ "Config file not found or empty.") ∧
     (finalize_chapter_api envBadCfg bodyChap1).genCalled = false) ∧
    ((check_consistency_api envBadCfg bodyChap1).response =
      errResp 500 ("LLM Config Error: " ++ "Config file not found or empty.") ∧
     (check_consistency_api envBadCfg bodyChap1).checkerCall = none) := by
  have t := C4_missing_config_500 envBadCfg bodyChap1 "Config file not found or empty."
    "p" "novel_projects/p" rfl rfl
  exact ⟨t.1 rfl, t.2.1 rfl, t.2.2.1 rfl, t.2.2.2.1, t.2.2.2.2 1 rfl rfl⟩

/-- A successful `int()` conversion implies the converted value was not
Python `None`. -/
theorem pyInt_ok_not_null (j : Json) (n : Int) (h : pyInt j = .ok n) :
    j.isNull = false := by
  cases j <;> first | rfl | simp [pyInt] at h

/-- C5: on a consistency-check request with valid body and configuration, if
any of the four guarded artifacts (`Novel_architecture.txt`,
`character_state.txt`, `global_summary.txt`, `chapters/chapter_n.txt`) is
missing or reads back empty, the response is 404 with a JSON error message
naming the first such file in check order, and the external checker is not
called. -/
theorem C5_missing_files_404 (env : Env) (body : Body) (name fp : String)
    (llm iface : Json) (n : Int)
    (hproj : projectInfo env body = .ok (name, fp))
    (hb : body.isEmpty = false)
    (hcn : pyInt ((body.lookup "chapter_number").getD .null) = .ok n)
    (hcfg : get_llm_config env.configStore = .ok (llm, iface)) :
    ((read_file env.files (pjoin fp "Novel_architecture.txt") = "" ∨
      read_file env.files (pjoin fp "character_state.txt") = "" ∨
      read_file env.files (pjoin fp "global_summary.txt") = "" ∨
      read_file env.files (pjoin (pjoin fp "chapters") ("chapter_" ++ toString n ++ ".txt")) = "") →
      (check_consistency_api env body).response.status? = some 404 ∧
      (check_consistency_api env body).checkerCall = none)
  ∧ (read_file env.files (pjoin fp "Novel_architecture.txt") = "" →
      (check_consistency_api env body).response =
        errResp 404 ("Required file issue: Novel_architecture.txt not found or empty in " ++
          quoted fp))
  ∧ (read_file env.files (pjoin fp "Novel_architecture.txt") ≠ "" →
     read_file env.files (pjoin fp "character_state.txt") = "" →
      (check_consistency_api env body).response =
        errResp 404 ("Required file issue: character_state.txt not found or empty in " ++
          quoted fp))
  ∧ (read_file env.files (pjoin fp "Novel_architecture.txt") ≠ "" →
     read_file env.files (pjoin fp "character_state.txt") ≠ "" →
     read_file env.files (pjoin fp "global_summary.txt") = "" →
      (check_consistency_api env body).response =
        errResp 404 ("Required file issue: global_summary.txt not found or empty in " ++
          quoted fp))
  ∧ (read_file env.files (pjoin fp "Novel_architecture.txt") ≠ "" →
     read_file env.files (pjoin fp "character_state.txt") ≠ "" →
     read_file env.files (pjoin fp "global_summary.txt") ≠ "" →
     read_file env.files (pjoin (pjoin fp "chapters") ("chapter_" ++ toString n ++ ".txt")) = "" →
      (check_consistency_api env body).response =
        errResp 404 ("Required file issue: Chapter file " ++
          quoted (pjoin (pjoin fp "chapters") ("chapter_" ++ toString n ++ ".txt")) ++
          " not found or empty.")) := by
  have hnn := pyInt_ok_not_null _ _ hcn
  refine ⟨?_, ?_, ?_, ?_, ?_⟩
  · intro hdisj
    by_cases e1 : read_file env.files (pjoin fp "Novel_architecture.txt") = ""
    · constructor <;> simp [check_consistency_api, errResp, HResult.status?, hb, hproj, hnn, hcn, hcfg, e1]
    · by_cases e2 : read_file env.files (pjoin fp "character_state.txt") = ""
      · constructor <;> simp [check_consistency_api, errResp, HResult.status?, hb, hproj, hnn, hcn, hcfg, e1, e2]
      · by_cases e3 : read_file env.files (pjoin fp "global_summary.txt") = ""
        · constructor <;> simp [check_consistency_api, errResp, HResult.status?, hb, hproj, hnn, hcn, hcfg, e1, e2, e3]
        · by_cases e4 : read_file env.files
            (pjoin (pjoin fp "chapters") ("chapter_" ++ toString n ++ ".txt")) = ""
          · constructor <;>
              simp [check_consistency_api, errResp, HResult.status?, hb, hproj, hnn, hcn, hcfg, e1, e2, e3, e4]
          · rcases hdisj with h | h | h | h <;> contradiction
  · intro e1
    simp [check_consistency_api, hb, hproj, hnn, hcn, hcfg, e1]
  · intro e1 e2
    simp [check_consistency_api, hb, hproj, hnn, hcn, hcfg, e1, e2]
  · intro e1 e2 e3
    simp [check_consistency_api, hb, hproj, hnn, hcn, hcfg, e1, e2, e3]
  · intro e1 e2 e3 e4
    simp [check_consistency_api, hb, hproj, hnn, hcn, hcfg, e1, e2, e3, e4]

/-- C5 witness: with a valid configuration and no project files on disk, the
consistency check answers 404 naming `Novel_architecture.txt` and never
invokes the checker. -/
theorem C5_witness :
    (check_consistency_api baseEnv bodyChap1).response.status? = some 404 ∧
    (check_consistency_api baseEnv bodyChap1).checkerCall = none ∧
    (check_consistency_api baseEnv bodyChap1).response =
      errResp 404 ("Required file issue: Novel_architecture.txt not found or empty in " ++
        quoted "novel_projects/p") := by
  have t := C5_missing_files_404 baseEnv bodyChap1 "p" "novel_projects/p"
    goodLLMSel (.str "TestLLM") 1 rfl rfl rfl rfl
  exact ⟨(t.1 (Or.inl rfl)).1, (t.1 (Or.inl rfl)).2, t.2.1 rfl⟩

/-- As `baseEnv` but the delegated external call raises `FileNotFoundError`. -/
def envFNF : Env := { baseEnv with gen := .error (.fileNotFound "missing blueprint") }

/-- A body carrying every required field of the generator-backed routes. -/
def bodyFull : Body := [("project_name", .str "p"), ("num_chapters", .num 3),
  ("novel_number", .num 1), ("word_number", .num 500)]

/-- C6: when the delegated external function raises `FileNotFoundError`, the
blueprint, chapter-draft and finalize routes answer 400 with a JSON error
message containing the exception text (stated for every request that
actually reaches the external call). -/
theorem C6_fnf_400 (env : Env) (body : Body) (m : String)
    (hgen : env.gen = .error (.fileNotFound m)) :
    ((generate_blueprint_api env body).genCalled = true →
      (generate_blueprint_api env body).response =
        errResp 400 ("Prerequisite file not found: " ++ m ++ "."))
  ∧ ((generate_chapter_draft_api env body).genCalled = true →
      (generate_chapter_draft_api env body).response =
        errResp 400 ("Prerequisite file not found: " ++ m ++ "."))
  ∧ ((finalize_chapter_api env body).genCalled = true →
      (finalize_chapter_api env body).response =
        errResp 400 ("Required file not found: " ++ m ++ ".")) := by
  refine ⟨?_, ?_, ?_⟩
  · unfold generate_blueprint_api
    rw [hgen]
    repeat' split
    all_goals intro hcall
    all_goals try simp_all [blueprintExcResp]
    all_goals (try (split at hcall)) <;> try simp_all [blueprintExcResp]
    all_goals (try (split at hcall)) <;> try simp_all [blueprintExcResp]
    all_goals (try (split at hcall)) <;> try simp_all [blueprintExcResp]
    all_goals subst_vars
    all_goals first | rfl | simp_all [blueprintExcResp]
  · unfold generate_chapter_draft_api
    rw [hgen]
    repeat' split
    all_goals intro hcall
    all_goals try simp_all [draftExcResp]
    all_goals (try (split at hcall)) <;> try simp_all [draftExcResp]
    all_goals (try (split at hcall)) <;> try simp_all [draftExcResp]
    all_goals (try (split at hcall)) <;> try simp_all [draftExcResp]
    all_goals subst_vars
    all_goals first | rfl | simp_all [draftExcResp]
  · unfold finalize_chapter_api
    rw [hgen]
    repeat' split
    all_goals intro hcall
    all_goals try simp_all [finalizeExcResp]
    all_goals (try (split at hcall)) <;> try simp_all [finalizeExcResp]
    all_goals (try (split at hcall)) <;> try simp_all [finalizeExcResp]
    all_goals (try (split at hcall)) <;> try simp_all [finalizeExcResp]
    all_goals subst_vars
    all_goals first | rfl | simp_all [finalizeExcResp]

/-- C6 witness: a fully valid request against an external library that
raises `FileNotFoundError` draws 400 with the exception text from all three
routes. -/
theorem C6_witness :
    (generate_blueprint_api envFNF bodyFull).genCalled = true ∧
    (generate_blueprint_api envFNF bodyFull).response =
      errResp 400 ("Prerequisite file not found: " ++ "missing blueprint" ++ ".") ∧
    (generate_chapter_draft_api envFNF bodyFull).genCalled = true ∧
    (generate_chapter_draft_api envFNF bodyFull).response =
      errResp 400 ("Prerequisite file not found: " ++ "missing blueprint" ++ ".") ∧
    (finalize_chapter_api envFNF bodyFull).genCalled = true ∧
    (finalize_chapter_api envFNF bodyFull).response =
      errResp 400 ("Required file not found: " ++ "missing blueprint" ++ ".") := by
  have t := C6_fnf_400 envFNF bodyFull "missing blueprint" rfl
  exact ⟨rfl, t.1 rfl, rfl, t.2.1 rfl, rfl, t.2.2 rfl⟩

/-- Every message produced by the architecture route's exception mapping
contains the exception text `str(e)` (as a suffix). -/
theorem archExcMsg_decomp (e : Exc) : ∃ pre, archExcMsg e = pre ++ e.msg := by
  cases e <;> exact ⟨_, rfl⟩

/-- C7: for every architecture request that reaches the external
`Novel_architecture_generate` call, an exception `e` raised by the call is
mapped to a 500 response whose JSON message contains `str(e)`, and a normal
return is mapped to a 200 success response carrying the project filepath. -/
theorem C7_architecture_passthrough (env : Env) (body : Body) (name fp : String)
    (hproj : projectInfo env body = .ok (name, fp))
    (hcall : (generate_architecture_api env body).genCalled = true) :
    (∀ e : Exc, env.gen = .error e →
      ∃ pre, (generate_architecture_api env body).response = errResp 500 (pre ++ e.msg))
  ∧ (∀ s : String, env.gen = .ok s →
      (generate_architecture_api env body).response =
        .resp ⟨200, .obj [("status", .str "success"),
          ("message", .str "Novel architecture generated."),
          ("filepath", .str fp)]⟩) := by
  constructor
  · intro e he
    obtain ⟨pre, hpre⟩ := archExcMsg_decomp e
    refine ⟨pre, ?_⟩
    revert hcall
    unfold generate_architecture_api
    rw [hproj, he]
    repeat' split
    all_goals intro hcall
    all_goals simp_all [hpre]
  · intro s hs
    revert hcall
    unfold generate_architecture_api
    rw [hproj, hs]
    repeat' split
    all_goals intro hcall
    all_goals simp_all

/-- As `baseEnv` but the delegated external call raises a generic exception. -/
def envBoom : Env := { baseEnv with gen := .error (.other "boom") }

/-- C7 witness: one request whose external call returns normally (200 with
the filepath) and one whose call raises (500 containing the text). -/
theorem C7_witness :
    (generate_architecture_api baseEnv bodyFull).genCalled = true ∧
    (generate_architecture_api baseEnv bodyFull).response =
      .resp ⟨200, .obj [("status", .str "success"),
        ("message", .str "Novel architecture generated."),
        ("filepath", .str "novel_projects/p")]⟩ ∧
    (generate_architecture_api envBoom bodyFull).genCalled = true ∧
    (∃ pre, (generate_architecture_api envBoom bodyFull).response =
      errResp 500 (pre ++ Exc.msg (.other "boom"))) := by
  refine ⟨rfl, ?_, rfl, ?_⟩
  · exact (C7_architecture_passthrough baseEnv bodyFull "p" "novel_projects/p" rfl rfl).2
      "generated text" rfl
  · exact (C7_architecture_passthrough envBoom bodyFull "p" "novel_projects/p" rfl rfl).1
      (.other "boom") rfl

/-- C8 (amended): for every request with a NON-EMPTY JSON-object body, the
vector-store clear route answers 404 when the project directory does not
exist, and otherwise 200 exactly when `clear_vector_store` returns a truthy
value without raising, 500 in every other case.  (An empty JSON object is
falsy in Python and is rejected as 400 before the directory check.) -/
theorem C8_clear_statuses (env : Env) (body : Body) (name fp : String)
    (hb : body.isEmpty = false)
    (hproj : projectInfo env body = .ok (name, fp)) :
    (fp ∉ env.dirs →
      (clear_vectorstore_api env body).status? = some 404)
  ∧ (fp ∈ env.dirs →
      (((clear_vectorstore_api env body).status? = some 200 ↔ env.clear = .ok true) ∧
       (env.clear ≠ .ok true → (clear_vectorstore_api env body).status? = some 500))) := by
  constructor
  · intro hd
    simp [clear_vectorstore_api, hb, hproj, hd, errResp, HResult.status?]
  · intro hd
    constructor
    · cases hc : env.clear with
      | ok b =>
        cases b
        · simp [clear_vectorstore_api, hb, hproj, hd, hc, errResp, HResult.status?]
        · simp [clear_vectorstore_api, hb, hproj, hd, hc, HResult.status?]
      | error e =>
        simp [clear_vectorstore_api, hb, hproj, hd, hc, errResp, HResult.status?]
    · intro hne
      cases hc : env.clear with
      | ok b =>
        cases b with
        | false => simp [clear_vectorstore_api, hb, hproj, hd, hc, errResp, HResult.status?]
        | true => exact absurd hc hne
      | error e =>
        simp [clear_vectorstore_api, hb, hproj, hd, hc, errResp, HResult.status?]

/-- C8 counterexample: an empty JSON-object body is falsy, so even with the
project directory absent the route answers 400 ("Request body must be
JSON."), not the 404 the claim requires. -/
theorem C8_counterexample :
    clear_vectorstore_api baseEnv [] = errResp 400 "Request body must be JSON." ∧
    (clear_vectorstore_api baseEnv []).status? = some 400 ∧
    baseEnv.dirs.contains (pjoin baseEnv.base "default_project") = false :=
  ⟨rfl, rfl, rfl⟩

/-- As `baseEnv` with the project directory of `p` existing on disk. -/
def envDirs : Env := { baseEnv with dirs := ["novel_projects/p"] }

/-- C8 witness: a missing directory draws 404; an existing one with a
successful clear draws 200. -/
theorem C8_witness :
    (clear_vectorstore_api baseEnv bodyOnlyProject).status? = some 404 ∧
    (clear_vectorstore_api envDirs bodyOnlyProject).status? = some 200 := by
  refine ⟨(C8_clear_statuses baseEnv bodyOnlyProject "p" "novel_projects/p" rfl rfl).1 (by simp [baseEnv]), ?_⟩
  exact ((C8_clear_statuses envDirs bodyOnlyProject "p" "novel_projects/p" rfl rfl).2 (by simp [envDirs, baseEnv])).1.mpr rfl

/-- C9 (amended): the architecture, blueprint and chapter-draft routes run
`os.makedirs` on `<base>/<project_name>` before validating the configuration
or the body, so whenever directory creation itself succeeds, the directory
exists after the response — even when that response is a 400 or 500 error.
(When `os.makedirs` raises, the route answers 500 without the directory.) -/
theorem C9_dir_created_before_validation (env : Env) (body : Body) (s : String)
    (hpn : body.lookup "project_name" = some (.str s))
    (hmk : env.makedirsOk = true) :
    (generate_architecture_api env body).dirCreated = some (pjoin env.base s)
  ∧ (generate_blueprint_api env body).dirCreated = some (pjoin env.base s)
  ∧ (generate_chapter_draft_api env body).dirCreated = some (pjoin env.base s) := by
  have hproj : projectInfo env body = .ok (s, pjoin env.base s) := by
    simp [projectInfo, hpn]
  refine ⟨?_, ?_, ?_⟩
  · unfold generate_architecture_api
    rw [hproj]
    dsimp only
    repeat' split
    all_goals simp_all
  · unfold generate_blueprint_api
    rw [hproj]
    dsimp only
    repeat' split
    all_goals simp_all
  · unfold generate_chapter_draft_api
    rw [hproj]
    dsimp only
    repeat' split
    all_goals simp_all

/-- As `baseEnv` but `os.makedirs` raises `OSError`. -/
def envNoMkdir : Env := { baseEnv with makedirsOk := false, makedirsMsg := "Permission denied" }

/-- C9 counterexample: when directory creation itself fails, the architecture
route answers 500 and the directory does not exist afterwards, so the
claim's "exists after the response even when the response is a 400 or 500
error" fails as stated. -/
theorem C9_counterexample :
    (generate_architecture_api envNoMkdir bodyOnlyProject).response.status? = some 500 ∧
    (generate_architecture_api envNoMkdir bodyOnlyProject).dirCreated = none :=
  ⟨rfl, rfl⟩

/-- C9 witness: with a missing configuration the three routes answer 500,
yet the project directory has been created. -/
theorem C9_witness :
    ((generate_architecture_api envBadCfg bodyOnlyProject).dirCreated = some "novel_projects/p" ∧
     (generate_blueprint_api envBadCfg bodyOnlyProject).dirCreated = some "novel_projects/p" ∧
     (generate_chapter_draft_api envBadCfg bodyOnlyProject).dirCreated = some "novel_projects/p") ∧
    (generate_architecture_api envBadCfg bodyOnlyProject).response.status? = some 500 :=
  ⟨C9_dir_created_before_validation envBadCfg bodyOnlyProject "p" rfl rfl, rfl⟩

/-- A body whose `num_chapters` is a string that does not parse as an
integer. -/
def bodyBadNC : Body := [("project_name", .str "p"), ("num_chapters", .str "abc")]

/-- C10: the architecture route converts `num_chapters` with `int()` outside
any try/except, so a non-convertible string makes the handler raise an
unhandled `ValueError`, while the blueprint route returns the 400 JSON error
shape for the same malformed field. -/
theorem C10_unvalidated_int_conversion :
    (generate_architecture_api baseEnv bodyBadNC).response =
      .unhandled (.valueError ("invalid literal for int() with base 10: " ++ quoted "abc")) ∧
    (generate_blueprint_api baseEnv bodyBadNC).response =
      errResp 400 (quoted "num_chapters" ++ " must be an integer.") :=
  ⟨rfl, rfl⟩
